import Mathlib

/-!
Verification development for the `KaylaPrattA11y/components` browser-widget
repository. The definitions below are a shallow embedding, translated
function-by-function from the JavaScript sources:

* `src/unnamed/part_001` — the `FocusTrap` class (focus containment manager);
* `src/unnamed/part_009` — the authoritative `Modal` class (dialog lifecycle
  controller; `src/unnamed/part_008` is an older variant of the same class);
* `src/SlideShow/index.js` — the `SlideShow` (carousel) component;
* `src/AlertBanners/component.js` — the primary `AlertBanners` component, and
  `src/unnamed/part_000` — the alternate (throwing) `AlertBanners` variant.

DOM elements are modelled as records of exactly the fields the embedded code
reads or writes; reference identity of DOM nodes is modelled by list position
where the code compares nodes with `===`.
-/

/-! ## Focus Containment Manager (`src/unnamed/part_001`, class `FocusTrap`) -/

/-- Model of a DOM element as seen by `FocusTrap.canBeFocused` and the
candidate CSS selector of `FocusTrap.getFocusableElements`.  `tabIndex` is the
IDL property (browser-computed when no `tabindex` content attribute is set;
e.g. per WHATWG HTML it defaults to 0 for `button`, `input`, `object`, … and
to -1 for most other elements); `tabindexAttr` is the content attribute the
selector string matches against. -/
structure Elem where
  tag : String
  hasHref : Bool
  hasAccesskey : Bool
  hasContenteditable : Bool
  tabindexAttr : Option String
  tabIndex : Int
  offsetWidth : Nat
  offsetHeight : Nat
  clientRectsLen : Nat
  hasHiddenAttr : Bool
  classes : List String
  hasDisabledAttr : Bool
  dataBumper : Option String
  deriving Repr, DecidableEq

/-- Tags listed verbatim in the candidate selector of
`FocusTrap.getFocusableElements`:
`audio, button, canvas, details, iframe, [href], input, select, summary,
textarea, video, progress, [accesskey], [contenteditable],
[tabindex]:not([tabindex="-1"])`. -/
def focusCandidateTags : List String :=
  ["audio", "button", "canvas", "details", "iframe", "input", "select",
   "summary", "textarea", "video", "progress"]

/-- Whether an element matches the candidate selector that
`FocusTrap.getFocusableElements` passes to `querySelectorAll`. -/
def matchesFocusCandidateSelector (t : Elem) : Bool :=
  focusCandidateTags.contains t.tag || t.hasHref || t.hasAccesskey ||
    t.hasContenteditable ||
    (match t.tabindexAttr with
     | some v => v != "-1"
     | none => false)

namespace FocusTrap

/-- `FocusTrap.canBeFocused` (part_001 lines 10-20): tab index above -1, AND
visible (non-zero `offsetWidth` or `offsetHeight` or at least one client
rect), AND not hidden (no `hidden` attribute, no `hidden`/`d-none` class),
AND no `disabled` attribute, AND not a focus bumper (`data-bumper`). -/
def canBeFocused (t : Elem) : Bool :=
  let hasTabIndex := t.tabIndex > -1
  let isVisible := t.offsetWidth != 0 || t.offsetHeight != 0 || t.clientRectsLen != 0
  let isNotHidden := !t.hasHiddenAttr && !(t.classes.contains "hidden")
      && !(t.classes.contains "d-none")
  let isNotDisabled := !t.hasDisabledAttr
  let isNotABumper := !t.dataBumper.isSome
  hasTabIndex && isVisible && isNotHidden && isNotDisabled && isNotABumper

/-- `FocusTrap.getFocusableElements`: `querySelectorAll(candidate selector)`
over the container's descendants, then `filter(canBeFocused)`. A container is
modelled as its descendant list in document order. -/
def getFocusableElements (t : List Elem) : List Elem :=
  (t.filter matchesFocusCandidateSelector).filter canBeFocused

/-- `FocusTrap.getFirstFocusableElement`:
`getFocusableElements(t)?.find(element => element.tabIndex > -1)`. -/
def getFirstFocusableElement (t : List Elem) : Option Elem :=
  (getFocusableElements t).find? (fun element => element.tabIndex > -1)

/-- `FocusTrap.getLastFocusableElement`:
`getFocusableElements(t)?.reverse()?.find(element => element.tabIndex > -1)`. -/
def getLastFocusableElement (t : List Elem) : Option Elem :=
  (getFocusableElements t).reverse.find? (fun element => element.tabIndex > -1)

/-- The start bumper built by `buildFocusBumperElements`:
`document.createElement("focus-bumper")` with `tabIndex = "0"` (reflected into
the `tabindex` content attribute) and `dataset.bumper = "start"`. -/
def bumperStart : Elem :=
  { tag := "focus-bumper", hasHref := false, hasAccesskey := false,
    hasContenteditable := false, tabindexAttr := some "0", tabIndex := 0,
    offsetWidth := 0, offsetHeight := 0, clientRectsLen := 1,
    hasHiddenAttr := false, classes := [], hasDisabledAttr := false,
    dataBumper := some "start" }

/-- The end bumper built by `buildFocusBumperElements`
(`dataset.bumper = "end"`). -/
def bumperEnd : Elem :=
  { tag := "focus-bumper", hasHref := false, hasAccesskey := false,
    hasContenteditable := false, tabindexAttr := some "0", tabIndex := 0,
    offsetWidth := 0, offsetHeight := 0, clientRectsLen := 1,
    hasHiddenAttr := false, classes := [], hasDisabledAttr := false,
    dataBumper := some "end" }

/-- Whether an element is selected by `querySelectorAll("focus-bumper")`
(selection is by tag name). -/
def isBumperElem (e : Elem) : Bool :=
  e.tag == "focus-bumper"

/-- Number of bumper elements inside a container, i.e. the length of
`container.querySelectorAll("focus-bumper")`. -/
def bumperCount (elems : List Elem) : Nat :=
  (elems.filter isBumperElem).length

/-- A trapped container: its descendant elements in document order, plus the
number of `focus` listeners attached to bumper nodes inside it
(`addEventListenerToBumpers` attaches one per bumper; listeners die with
their owning nodes when the nodes are removed). -/
structure TrapContainer where
  elems : List Elem
  bumperFocusListeners : Nat
  deriving Repr, DecidableEq

/-- `FocusTrap.buildFocusBumperElements`: if any `focus-bumper` exists inside
the container, return without creating new ones; otherwise insert a start
bumper `afterbegin` (first child) and an end bumper `beforeend` (last child)
and attach a `focus` listener to each bumper
(`addEventListenerToBumpers`). -/
def buildFocusBumperElements (c : TrapContainer) : TrapContainer :=
  if (c.elems.filter isBumperElem).length != 0 then c
  else
    { elems := bumperStart :: c.elems ++ [bumperEnd],
      bumperFocusListeners := c.bumperFocusListeners + 2 }

/-- `FocusTrap.focusTrapHandler`: focus landing on the start bumper is sent to
the last focusable element of the container, focus landing on the end bumper
to the first.  `focus` is the element currently holding focus (`none` when
focus is outside the model); `?.focus()` on a missing element leaves it
unchanged. -/
def focusTrapHandler (target : Elem) (container : List Elem)
    (focus : Option Elem) : Option Elem :=
  let f1 :=
    if target.tag == "focus-bumper" && target.dataBumper == some "start" then
      match getLastFocusableElement container with
      | some e => some e
      | none => focus
    else focus
  if target.tag == "focus-bumper" && target.dataBumper == some "end" then
    match getFirstFocusableElement container with
    | some e => some e
    | none => f1
  else f1

/-- `FocusTrap.start`: build the bumpers (no-op if already present), then
focus the first focusable element (`?.focus()` leaves focus unchanged when
there is none).  Returns the updated container and the new focus. -/
def start (c : TrapContainer) (focus : Option Elem) :
    TrapContainer × Option Elem :=
  let c' := buildFocusBumperElements c
  (c',
   match getFirstFocusableElement c'.elems with
   | some e => some e
   | none => focus)

/-- `FocusTrap.stop`: remove every `focus-bumper` from the container; the
`focus` listeners attached to the bumper nodes are removed with them. -/
def stop (c : TrapContainer) : TrapContainer :=
  { elems := c.elems.filter (fun e => !isBumperElem e),
    bumperFocusListeners := 0 }

end FocusTrap

/-- One external call into the focus-trap API, for stating the bumper-count
invariant over arbitrary call sequences. -/
inductive TrapOp
  | startOp
  | stopOp
  deriving Repr, DecidableEq

/-- The container component of the effect of one `FocusTrap` call. -/
def applyTrapOp (c : FocusTrap.TrapContainer) : TrapOp → FocusTrap.TrapContainer
  | .startOp => (FocusTrap.start c none).1
  | .stopOp => FocusTrap.stop c


/-- The spec's focusability predicate, stated in the claim's words: tab order
at least 0, non-zero rendered width or height or at least one client rect,
not marked hidden via the `hidden` attribute or a `hidden`/`d-none` class,
no `disabled` attribute, not a bumper sentinel. -/
def canBeFocusedSpec (t : Elem) : Prop :=
  t.tabIndex >= 0 ∧
  (t.offsetWidth ≠ 0 ∨ t.offsetHeight ≠ 0 ∨ t.clientRectsLen ≠ 0) ∧
  t.hasHiddenAttr = false ∧ "hidden" ∉ t.classes ∧ "d-none" ∉ t.classes ∧
  t.hasDisabledAttr = false ∧
  t.dataBumper = none

/-! ## Dialog Lifecycle Controller (`src/unnamed/part_009`, class `Modal`) -/

namespace Modal

/-- A `<dialog>` element as seen by the static `Modal` API: its `id`, the
native `open` attribute, the `data-locked` content attribute, and whether the
focus-trap bumpers are currently inside it. -/
structure Dialog where
  id : String
  openAttr : Bool
  dataLocked : Option String
  trapped : Bool
  deriving Repr, DecidableEq

/-- The value of `dialog.getAttribute("data-locked") === "true"`, which is
what `Modal.close`/`Modal.handleClosed` compute by calling `Modal.isLocked`
on the dialog element. -/
def lockedB (d : Dialog) : Bool :=
  d.dataLocked == some "true"

/-- Observable side effects of the static `Modal` API, in the order the code
performs (or, for the native close, queues) them. -/
inductive MEffect
  | trapStart (id : String)
  | trapStop (id : String)
  | nativeShowModal (id : String)
  | nativeClose (id : String)
  | scrollLock
  | scrollUnlockScheduled
  | shown (id : String)
  deriving Repr, DecidableEq

/-- The page state the static `Modal` API manipulates: the dialogs in the
document (in document order, ids unique per the DOM id contract) and the
trace of effects performed so far. -/
structure MState where
  dialogs : List Dialog
  effects : List MEffect
  deriving Repr, DecidableEq

/-- `document.getElementById(id)` restricted to dialogs (first match). -/
def getDialog (s : MState) (id : String) : Option Dialog :=
  s.dialogs.find? (fun d => d.id == id)

/-- `Modal.isOpen(id)`: `document.getElementById(id).hasAttribute("open")`.
(When no element has the id the JS throws; claims are stated for existing
ids, where `getD false` is never reached.) -/
def isOpenB (s : MState) (id : String) : Bool :=
  ((getDialog s id).map (fun d => d.openAttr)).getD false

/-- The per-dialog effect of `Modal.close(id, force)` on the dialog record:
unchanged when `(isLocked && !forceClose) || !isOpen`, otherwise the native
close removes the `open` attribute and `FocusTrap.stop` removes the
bumpers. -/
def closeDialog (d : Dialog) (force : Bool) : Dialog :=
  if (lockedB d && !force) || !d.openAttr then d
  else { d with openAttr := false, trapped := false }

/-- `Modal.close(id, forceClose = false)` (part_009 lines 287-299): looks the
dialog up by id; returns untouched when `(Modal.isLocked(dialog) &&
!forceClose) || !Modal.isOpen(id)`; otherwise stops the focus trap, calls the
native `dialog.close()` (which drops the `open` attribute and queues the
`close` event that in turn dispatches `Modal:closed`), and schedules the
page-scroll unlock after the animation duration. -/
def close (s : MState) (id : String) (force : Bool) : MState :=
  match getDialog s id with
  | none => s
  | some d =>
    if (lockedB d && !force) || !d.openAttr then s
    else
      { dialogs := s.dialogs.map (fun d' =>
          if d'.id == id then { d' with openAttr := false, trapped := false }
          else d'),
        effects := s.effects ++
          [.trapStop id, .nativeClose id, .scrollUnlockScheduled] }

/-- The ids captured by `document.querySelectorAll("dialog[open]")` at the
moment `Modal.closeAll` runs. -/
def openIds (s : MState) : List String :=
  (s.dialogs.filter (fun d => d.openAttr)).map (fun d => d.id)

/-- The `forEach` loop body of `Modal.closeAll`, folded over a snapshot of
open-dialog ids. -/
def foldClose (ids : List String) (s : MState) (force : Bool) : MState :=
  ids.foldl (fun st i => close st i force) s

/-- `Modal.closeAll(forceClose = false)` (part_009 lines 305-308): snapshot
the open dialogs, then `Modal.close(dialog.id, forceClose)` on each. -/
def closeAll (s : MState) (force : Bool) : MState :=
  foldClose (openIds s) s force

/-- `Modal.show(id, closeOthers = true)` (part_009 lines 258-280; named
`showById` because `show` is a Lean keyword): when `closeOthers`, first
`Modal.closeAll()` (not forced); then return if `Modal.isOpen(id)`; otherwise
`dialog.showModal()`, `FocusTrap.start(dialog)`, set the body scroll lock, and
dispatch the `Modal:shown` custom event. -/
def showById (s : MState) (id : String) (closeOthers : Bool) : MState :=
  let s1 := if closeOthers then closeAll s false else s
  if isOpenB s1 id then s1
  else
    match getDialog s1 id with
    | none => s1
    | some _ =>
      { dialogs := s1.dialogs.map (fun d' =>
          if d'.id == id then { d' with openAttr := true, trapped := true }
          else d'),
        effects := s1.effects ++
          [.nativeShowModal id, .trapStart id, .scrollLock, .shown id] }

/-- The record-update function `close` maps over the dialog list. -/
def closeUpd (i : String) (d' : Dialog) : Dialog :=
  if d'.id == i then { d' with openAttr := false, trapped := false } else d'

/-- The argument actually handed to `Modal.isLocked`: the documented signature
says a `String` id, while the internal callers (`Modal.close`,
`handleClosed`) pass the dialog element itself. -/
inductive IdArg
  | str (s : String)
  | elemArg (d : Dialog)
  deriving Repr, DecidableEq

/-- `Modal.isLocked(id)` (part_009 lines 332-334):
`id.getAttribute("data-locked") === "true"`.  A JavaScript string has no
`getAttribute` method, so the call raises a `TypeError` for every string
argument; it evaluates to a boolean only on an element. -/
def isLocked : IdArg → Except String Bool
  | .str _ => .error "TypeError: id.getAttribute is not a function"
  | .elemArg d => .ok (d.dataLocked == some "true")

end Modal

/-! ## Carousel State Machine (`src/SlideShow/index.js`, class `SlideShow`) -/

namespace SlideShow

/-- A slide (`<li>` child of the stage) as seen by `activateSlide`: its `id`,
the `is-active` class, and the `tabindex`/`aria-hidden` attributes that
`activateSlide` writes alongside it. -/
structure Slide where
  id : String
  isActive : Bool
  tabindex : String
  ariaHidden : Bool
  deriving Repr, DecidableEq

/-- The `slide` argument of `getSlide`/`activateSlide`/`destroySlide`: either
a numeric index or a slide id. -/
inductive SlideRef
  | idx (i : Int)
  | sid (s : String)
  deriving Repr, DecidableEq

/-- The numeric branch of `SlideShow.getSlide` (index.js lines 598-611),
expressed as the position of the element the code returns
(`slide > length - 1` → last slide, `slide < 0` → first slide, otherwise
`slides[slide]`).  `none` models the `undefined` the JS expressions produce
on an empty deck. -/
def getSlideIndex (n : Nat) (i : Int) : Option Nat :=
  if n = 0 then none
  else if i > (n : Int) - 1 then some (n - 1)
  else if i < 0 then some 0
  else some i.toNat

/-- Position of the first slide whose id matches, mirroring
`stage.querySelector("#" + slide)` over a flat deck whose ids live on the
slides themselves (first match in document order, `none` when absent). -/
def findIdAux (s : String) (j : Nat) : List Slide → Option Nat
  | [] => none
  | sl :: rest => if sl.id == s then some j else findIdAux s (j + 1) rest

/-- Position of the element `SlideShow.getSlide` returns for a reference. -/
def getSlideRef (slides : List Slide) : SlideRef → Option Nat
  | .idx i => getSlideIndex slides.length i
  | .sid s => findIdAux s 0 slides

/-- The per-slide loop of `activateSlide`
(`s.classList.toggle("is-active", s === target)`, `tabindex`, `aria-hidden`),
with DOM reference identity `s === target` rendered as position equality;
`j` is the position of the head of the remaining list. -/
def setActiveFrom (t : Option Nat) (j : Nat) : List Slide → List Slide
  | [] => []
  | s :: rest =>
    { s with isActive := t == some j,
             tabindex := if t == some j then "0" else "-1",
             ariaHidden := !(t == some j) } :: setActiveFrom t (j + 1) rest

/-- `SlideShow.activateSlide` (index.js lines 363-390), restricted to its
effect on the slides: resolve the target via `getSlide`, then toggle every
slide's active state against it.  (Dot updates, button state, heights and the
change event do not feed back into the slide list.) -/
def activateSlide (slides : List Slide) (r : SlideRef) : List Slide :=
  setActiveFrom (getSlideRef slides r) 0 slides

/-- Position of the first slide carrying the `is-active` class
(`stage.querySelector(":scope > li.is-active")`), with `j` the position of the
head of the remaining list. -/
def activeIdxAux (j : Nat) : List Slide → Option Nat
  | [] => none
  | s :: rest => if s.isActive then some j else activeIdxAux (j + 1) rest

/-- Position of the active slide, `none` when no slide is active
(`hasNoActiveSlide`). -/
def activeIdx (slides : List Slide) : Option Nat :=
  activeIdxAux 0 slides

/-- Number of slides carrying the `is-active` class. -/
def countActive (slides : List Slide) : Nat :=
  (slides.filter (fun s => s.isActive)).length

/-- `SlideShow.refreshUI` (index.js lines 395-403), restricted to its effect
on the slides: when `hasNoActiveSlide`, `activateSlide(0)`.  (The other
steps — slide aria attributes, picker dots, buttons, height — do not change
`is-active`.) -/
def refreshUI (slides : List Slide) : List Slide :=
  if (activeIdx slides).isNone then activateSlide slides (.idx 0) else slides

/-- `SlideShow.destroySlide` (index.js lines 351-357): remove the target
slide (`target?.remove()`), then `refreshUI` (the change event carries no
slide-state effect). -/
def destroySlide (slides : List Slide) (r : SlideRef) : List Slide :=
  match getSlideRef slides r with
  | none => refreshUI slides
  | some k => refreshUI (slides.eraseIdx k)

/-- The fixed `animationStyles` list of `src/SlideShow/index.js` line 7. -/
def animationStyles : List String := ["slide", "fade", "none"]

/-- The constructor settings `init`/`build` consult. -/
structure SSSettings where
  animationStyle : String
  hasNavArrows : Bool
  hasPicker : Bool
  hasSlideOverflow : Bool
  hasEqualSlideHeight : Bool
  deriving Repr, DecidableEq

/-- `SlideShow.validateSettings` (index.js lines 127-133): only the animation
style is checked, against `animationStyles`. -/
def validateSettings (s : SSSettings) : Bool :=
  animationStyles.contains s.animationStyle

/-- `SlideShow.validateStage` (index.js lines 139-149): the stage element
(modelled by its tag name, `none` when `getElementById` found nothing) must
exist and be an `OL`. -/
def validateStage (stage : Option String) : Bool :=
  match stage with
  | none => false
  | some tag => tag == "OL"

/-- `SlideShow.validateSlides` (index.js lines 155-166): the `return false`
inside the `forEach` callback only exits the callback, so the method always
returns `true`. -/
def validateSlides : Bool := true

/-- What a `SlideShow.init` run (index.js lines 52-58) did: whether the
component became initialized, and whether `build`/`addEventListeners` ran. -/
structure InitResult where
  initialized : Bool
  built : Bool
  listenersAdded : Bool
  deriving Repr, DecidableEq

/-- `SlideShow.init` on a freshly constructed instance
(`initialized = false`): abort before `build`/`addEventListeners`/`refreshUI`
unless `validateSettings`, `validateStage` and `validateSlides` all pass. -/
def init (s : SSSettings) (stage : Option String) : InitResult :=
  if !validateSettings s || !validateStage stage || !validateSlides then
    { initialized := false, built := false, listenersAdded := false }
  else
    { initialized := true, built := true, listenersAdded := true }

/-- `SlideShow.buildNavArrows` (index.js lines 270-291): the arrows are built
unless `!hasNavArrows || hasSlideOverflow`; the method returns early (without
aborting anything else) in that case. -/
def buildsNavArrows (s : SSSettings) : Bool :=
  !(!s.hasNavArrows || s.hasSlideOverflow)

end SlideShow

/-! ## Alert banners (`src/AlertBanners/component.js` and the alternate
variant `src/unnamed/part_000`) -/

/-- JavaScript values that can appear in a banner settings object: a string,
a number, or `undefined` (the field was omitted). -/
inductive JVal
  | vStr (s : String)
  | vNum (n : Int)
  | vUndef
  deriving Repr, DecidableEq

/-- JavaScript truthiness for the modelled values (`""` and `0` are falsy,
`undefined` is falsy). -/
def JVal.truthy : JVal → Bool
  | .vStr s => s != ""
  | .vNum n => n != 0
  | .vUndef => false

/-- `typeof v === "string"`. -/
def JVal.isString : JVal → Bool
  | .vStr _ => true
  | _ => false

/-- Modelled from the spec: the repository module `src/ui/statusTypes`
(imported by `src/AlertBanners/component.js` and `src/InlineAlerts/component.js`
but absent from the sources) enumerates the banner status types; the spec and
the component's own JSDoc list them as
success, trouble, error, featured, info, system. -/
def statusTypes : List String :=
  ["success", "trouble", "error", "featured", "info", "system"]

namespace AlertBanners

/-- `AlertBanners.validateSettings` (component.js lines 25-52): accumulates a
console warning per failed check (missing `message`; `id` present but not a
string; `location` not strictly equal to `"top"`/`"bottom"`; `type` not in
`statusTypes`) and returns whether all checks passed. -/
def validateSettings (message id location type_ : JVal) :
    List String × Bool :=
  let wMsg := if !message.truthy then ["requires a message"] else []
  let wId := if id.truthy && !id.isString then ["id must be a string"] else []
  let wLoc :=
    if !(location == JVal.vStr "top" || location == JVal.vStr "bottom") then
      ["location must be one of: top, bottom"]
    else []
  let wType :=
    if !(statusTypes.any (fun t => type_ == JVal.vStr t)) then
      ["type must be one of statusTypes"]
    else []
  (wMsg ++ wId ++ wLoc ++ wType,
   wMsg.isEmpty && wId.isEmpty && wLoc.isEmpty && wType.isEmpty)

/-- How far `AlertBanners.deploy` got: returned after a failed
`validateSettings` call, returned because a banner with the id already
exists, returned because the location mount point is missing, or reached the
DOM-mutating tail (clearing the container, appending the banner, dispatching
`AlertBanners:deployed`). -/
inductive DeployOutcome
  | abortedInvalid
  | abortedExisting
  | abortedNoContainer
  | deployed
  deriving Repr, DecidableEq

/-- The page context `deploy` consults: whether the
`<location>AlertBanners` mount point exists, and whether an element carrying
the requested id already exists with the `alert-banners--item` class. -/
structure BannerEnv where
  containerExists : Bool
  bannerWithIdIsBanner : Bool
  deriving Repr, DecidableEq

/-- `AlertBanners.deploy` (component.js lines 79-152), up to where the DOM is
mutated.  Destructuring defaults apply to omitted fields
(`id = ARIA.generateUniqueID("alertBanner")`, `location = "top"`,
`type = "info"`); the validation call is
`AlertBanners.validateSettings({ message, location, type })` — the `id`
field is NOT passed, so inside `validateSettings` it is `undefined`.
Returns the warnings logged and how far the call got. -/
def deploy (message id location type_ : JVal) (env : BannerEnv) :
    List String × DeployOutcome :=
  let id' := if id == JVal.vUndef then JVal.vStr "alertBanner-generated" else id
  let location' := if location == JVal.vUndef then JVal.vStr "top" else location
  let type' := if type_ == JVal.vUndef then JVal.vStr "info" else type_
  let v := validateSettings message JVal.vUndef location' type'
  if !v.2 then (v.1, .abortedInvalid)
  else if id' != JVal.vUndef && env.bannerWithIdIsBanner then
    (v.1, .abortedExisting)
  else if !env.containerExists then (v.1, .abortedNoContainer)
  else (v.1, .deployed)

end AlertBanners

namespace AlertBannersAlt

/-- `AlertBanners.validateSettings` of the alternate variant
(`src/unnamed/part_000` lines 18-43): each failed check `throw`s an `Error`
instead of warning (for the `location`/`type` checks the message expression
itself, `location.join(...)`/`type.join(...)`, raises a `TypeError` on the
offending scalar — either way the call raises), so the checks behave as a
chain and a raised error is the only failure signal. -/
def validateSettings (message id location type_ : JVal) :
    Except String Bool :=
  if !message.truthy then
    .error "requires a message"
  else if id.truthy && !id.isString then
    .error "id must be a string"
  else if !(location == JVal.vStr "top" || location == JVal.vStr "bottom") then
    .error "location must be one of: top, bottom"
  else if !(["success", "trouble", "error", "featured", "info", "system"].any
      (fun t => type_ == JVal.vStr t)) then
    .error "type must be one of the status types"
  else
    .ok true

end AlertBannersAlt

/-! ## Sample inputs used by witnesses and counterexamples -/

/-- A plain focusable `<button>` element. -/
def sampleButton : Elem :=
  { tag := "button", hasHref := false, hasAccesskey := false,
    hasContenteditable := false, tabindexAttr := none, tabIndex := 0,
    offsetWidth := 10, offsetHeight := 10, clientRectsLen := 1,
    hasHiddenAttr := false, classes := [], hasDisabledAttr := false,
    dataBumper := none }

/-- A focusable `<input>` element. -/
def sampleInput : Elem :=
  { sampleButton with tag := "input" }

/-- An `<object>` element with no attributes: per WHATWG HTML its `tabIndex`
IDL property defaults to 0, it is rendered and neither hidden nor disabled
nor a bumper — yet `object` matches no clause of the candidate selector of
`getFocusableElements`. -/
def objectElem : Elem :=
  { sampleButton with tag := "object" }

/-- A container holding one button and one input, untrapped. -/
def sampleContainer : FocusTrap.TrapContainer :=
  { elems := [sampleButton, sampleInput], bumperFocusListeners := 0 }

/-- An open, unlocked, trapped dialog. -/
def sampleOpenDialog : Modal.Dialog :=
  { id := "d1", openAttr := true, dataLocked := none, trapped := true }

/-- An open dialog whose `data-locked` attribute is `"true"`. -/
def sampleLockedDialog : Modal.Dialog :=
  { id := "dL", openAttr := true, dataLocked := some "true", trapped := true }

/-- A two-slide deck whose first slide is active. -/
def sampleDeck : List SlideShow.Slide :=
  [{ id := "a", isActive := true, tabindex := "0", ariaHidden := false },
   { id := "b", isActive := false, tabindex := "-1", ariaHidden := true }]

/-- A three-slide deck whose middle slide is active. -/
def sampleDeck3 : List SlideShow.Slide :=
  [{ id := "a", isActive := false, tabindex := "-1", ariaHidden := true },
   { id := "b", isActive := true, tabindex := "0", ariaHidden := false },
   { id := "c", isActive := false, tabindex := "-1", ariaHidden := true }]

/-- Carousel settings requesting both navigation arrows and slide overflow,
with a valid animation style. -/
def overflowArrowsSettings : SlideShow.SSSettings :=
  { animationStyle := "slide", hasNavArrows := true, hasPicker := true,
    hasSlideOverflow := true, hasEqualSlideHeight := true }

/-! ## Helper lemmas -/

/-- `find?` commutes with a `map` whose function preserves the predicate. -/
theorem find?_map_of_pred {α : Type} {g : α → α} {p : α → Bool}
    (hg : ∀ a, p (g a) = p a) (l : List α) :
    (l.map g).find? p = (l.find? p).map g := by
  induction l with
  | nil => simp
  | cons a t ih =>
    simp only [List.map_cons]
    cases hpa : p a with
    | false =>
      rw [List.find?_cons_of_neg _ (by simp [hg, hpa]),
          List.find?_cons_of_neg _ (by simp [hpa]), ih]
    | true =>
      rw [List.find?_cons_of_pos _ (by rw [hg]; exact hpa),
          List.find?_cons_of_pos _ hpa, Option.map_some']

namespace Modal

theorem getDialog_mk (l : List Dialog) (e : List MEffect) (i : String) :
    getDialog { dialogs := l, effects := e } i =
      l.find? (fun d => d.id == i) := rfl

theorem closeUpd_pres_id (i j : String) (a : Dialog) :
    ((closeUpd i a).id == j) = (a.id == j) := by
  unfold closeUpd
  by_cases h : (a.id == i) = true <;> simp [h]

theorem close_eq (s : MState) (i : String) (f : Bool) :
    close s i f =
      match getDialog s i with
      | none => s
      | some d =>
        if (lockedB d && !f || !d.openAttr) = true then s
        else
          { dialogs := s.dialogs.map (closeUpd i),
            effects := s.effects ++
              [.trapStop i, .nativeClose i, .scrollUnlockScheduled] } := rfl

theorem getDialog_close_self (s : MState) (i : String) (f : Bool) :
    getDialog (close s i f) i = (getDialog s i).map (fun d => closeDialog d f) := by
  rw [close_eq]
  split
  · next hfind => rw [hfind]; rfl
  · next d hfind =>
    have hid : (d.id == i) = true := by
      have h : s.dialogs.find? (fun d' => d'.id == i) = some d := hfind
      have h2 := List.find?_some h
      simpa using h2
    split
    · next hguard =>
      rw [hfind, Option.map_some']
      unfold closeDialog
      rw [if_pos hguard]
    · next hguard =>
      rw [getDialog_mk, find?_map_of_pred (closeUpd_pres_id i i),
          show s.dialogs.find? (fun d' => d'.id == i) = some d from hfind,
          hfind, Option.map_some', Option.map_some']
      unfold closeUpd closeDialog
      rw [if_neg hguard, if_pos hid]

theorem getDialog_close_other (s : MState) (i j : String) (f : Bool)
    (hne : j ≠ i) :
    getDialog (close s i f) j = getDialog s j := by
  rw [close_eq]
  split
  · rfl
  · next d hfind =>
    split
    · rfl
    · rw [getDialog_mk, find?_map_of_pred (closeUpd_pres_id i j),
          show getDialog s j = s.dialogs.find? (fun d => d.id == j) from rfl]
      cases hfj : s.dialogs.find? (fun d => d.id == j) with
      | none => rfl
      | some e =>
        have hej : e.id = j := by simpa using List.find?_some hfj
        rw [Option.map_some']
        unfold closeUpd
        rw [if_neg (by simp [hej, hne])]

theorem closeDialog_idem (d : Dialog) (f : Bool) :
    closeDialog (closeDialog d f) f = closeDialog d f := by
  unfold closeDialog
  by_cases h : (lockedB d && !f || !d.openAttr) = true
  · rw [if_pos h, if_pos h]
  · rw [if_neg h]
    simp

theorem getDialog_foldClose (ids : List String) (s : MState) (f : Bool)
    (j : String) :
    getDialog (foldClose ids s f) j =
      (getDialog s j).map (fun d => if j ∈ ids then closeDialog d f else d) := by
  induction ids generalizing s with
  | nil =>
    show getDialog s j = _
    cases getDialog s j <;> simp
  | cons i ids ih =>
    rw [show foldClose (i :: ids) s f = foldClose ids (close s i f) f from rfl, ih]
    by_cases hji : j = i
    · subst hji
      rw [getDialog_close_self]
      cases getDialog s j with
      | none => simp
      | some d =>
        by_cases hmem : j ∈ ids <;>
          simp [hmem, closeDialog_idem, List.mem_cons]
    · rw [getDialog_close_other _ _ _ _ hji]
      cases getDialog s j <;> simp [List.mem_cons, hji]

theorem mem_openIds (s : MState) (id : String) (d : Dialog)
    (hfind : getDialog s id = some d) (hopen : d.openAttr = true) :
    id ∈ openIds s := by
  have hmem : d ∈ s.dialogs := List.mem_of_find?_eq_some hfind
  have hid : d.id = id := by
    have h : s.dialogs.find? (fun d' => d'.id == id) = some d := hfind
    simpa using List.find?_some h
  unfold openIds
  exact List.mem_map.mpr ⟨d, List.mem_filter.mpr ⟨hmem, by simp [hopen]⟩, hid⟩

end Modal

/-! ## Claim theorems -/

/-- C1 (code bug). The claim says `Modal.show(id)` is a no-op while the
dialog is open, for both `closeOthers=true` (the default) and
`closeOthers=false`.  The code satisfies this only for `closeOthers=false`
(first conjunct).  With the default `closeOthers=true` on an open, unlocked
dialog, `Modal.closeAll()` runs before the `isOpen` guard and closes the
target dialog itself — despite `closeOthers` being documented as closing
"all *other* open modals" — so the guard passes and the dialog is closed and
re-shown: the focus trap is stopped and restarted, the scroll lock is
re-applied, and a second `Modal:shown` notification is dispatched (second
conjunct records the full effect trace). -/
theorem modal_show_reopen_trace :
    Modal.showById { dialogs := [sampleOpenDialog], effects := [] } "d1" false =
      { dialogs := [sampleOpenDialog], effects := [] } ∧
    Modal.showById { dialogs := [sampleOpenDialog], effects := [] } "d1" true =
      { dialogs := [sampleOpenDialog],
        effects := [.trapStop "d1", .nativeClose "d1", .scrollUnlockScheduled,
                    .nativeShowModal "d1", .trapStart "d1", .scrollLock,
                    .shown "d1"] } := by
  exact ⟨rfl, rfl⟩

/-- C2. For every dialog record with `data-locked="true"` that is open:
`Modal.close(id, false)` returns the page state entirely unchanged (no
focus-trap stop, no native close, no event, no scheduled scroll change);
`Modal.closeAll(false)` leaves that dialog's record unchanged (still open,
still trapped); while `Modal.close(id, true)` and `Modal.closeAll(true)`
close it regardless of the lock (the `open` attribute is dropped and the
focus trap stopped, with the close effects performed). -/
theorem modal_close_respects_lock (s : Modal.MState) (id : String)
    (d : Modal.Dialog) (hfind : Modal.getDialog s id = some d)
    (hlock : Modal.lockedB d = true) (hopen : d.openAttr = true) :
    Modal.close s id false = s ∧
    Modal.getDialog (Modal.closeAll s false) id = some d ∧
    Modal.getDialog (Modal.close s id true) id =
      some { d with openAttr := false, trapped := false } ∧
    (Modal.close s id true).effects = s.effects ++
      [.trapStop id, .nativeClose id, .scrollUnlockScheduled] ∧
    Modal.getDialog (Modal.closeAll s true) id =
      some { d with openAttr := false, trapped := false } := by
  have hguardF : (Modal.lockedB d && !false || !d.openAttr) = true := by
    simp [hlock]
  have hguardT : ¬(Modal.lockedB d && !true || !d.openAttr) = true := by
    simp [hopen]
  refine ⟨?_, ?_, ?_, ?_, ?_⟩
  · rw [Modal.close_eq, hfind]
    simp only [hguardF, if_pos]
  · rw [show Modal.closeAll s false = Modal.foldClose (Modal.openIds s) s false
        from rfl,
        Modal.getDialog_foldClose, hfind, Option.map_some']
    by_cases hmem : id ∈ Modal.openIds s <;>
      simp [hmem, Modal.closeDialog, hlock]
  · rw [Modal.getDialog_close_self, hfind, Option.map_some']
    unfold Modal.closeDialog
    rw [if_neg hguardT]
  · rw [Modal.close_eq, hfind]
    simp [hguardT, hopen]
  · rw [show Modal.closeAll s true = Modal.foldClose (Modal.openIds s) s true
        from rfl,
        Modal.getDialog_foldClose, hfind, Option.map_some']
    have hmem : id ∈ Modal.openIds s := Modal.mem_openIds s id d hfind hopen
    simp only [hmem, if_pos]
    unfold Modal.closeDialog
    rw [if_neg hguardT]

/-- Witness for C2 at a concrete page: one open dialog locked via
`data-locked="true"`; a non-forced close leaves the state untouched. -/
theorem modal_close_respects_lock_witness :
    Modal.close { dialogs := [sampleLockedDialog], effects := [] } "dL" false =
      { dialogs := [sampleLockedDialog], effects := [] } :=
  (modal_close_respects_lock
    { dialogs := [sampleLockedDialog], effects := [] } "dL"
    sampleLockedDialog rfl rfl rfl).1

/-- C10. `Modal.isLocked` is documented as taking an id string, but its body
calls `id.getAttribute("data-locked")`; a JavaScript string has no
`getAttribute` method, so the call raises a `TypeError` for every string
argument (first conjunct).  It returns a boolean only when passed the dialog
element itself (second conjunct), and that element-applied value is exactly
the lock test `Modal.close` (and `handleClosed`) performs, which is how every
internal caller invokes it (third conjunct). -/
theorem modal_isLocked_signature :
    (∀ s : String, Modal.isLocked (.str s) =
      .error "TypeError: id.getAttribute is not a function") ∧
    (∀ d : Modal.Dialog, Modal.isLocked (.elemArg d) = .ok (Modal.lockedB d)) ∧
    (∀ (d : Modal.Dialog) (f : Bool),
      Modal.closeDialog d f =
        if (((Modal.isLocked (.elemArg d)).toOption.getD false) && !f
            || !d.openAttr) = true then d
        else { d with openAttr := false, trapped := false }) := by
  exact ⟨fun _ => rfl, fun _ => rfl, fun _ _ => rfl⟩

namespace FocusTrap

theorem find?_eq_head_of_all {α : Type} (p : α → Bool) (l : List α)
    (h : ∀ x ∈ l, p x = true) : l.find? p = l.head? := by
  cases l with
  | nil => rfl
  | cons a t => rw [List.find?_cons_of_pos _ (h a (by simp))]; rfl

theorem mem_getFocusableElements_canBeFocused (l : List Elem) (x : Elem)
    (hx : x ∈ getFocusableElements l) : canBeFocused x = true :=
  (List.mem_filter.mp hx).2

theorem canBeFocused_tabIndex (x : Elem) (h : canBeFocused x = true) :
    (x.tabIndex > -1 : Bool) = true := by
  unfold canBeFocused at h
  simp only [Bool.and_eq_true] at h
  simpa using h.1.1.1.1

theorem getFirstFocusableElement_eq_head (l : List Elem) :
    getFirstFocusableElement l = (getFocusableElements l).head? := by
  unfold getFirstFocusableElement
  exact find?_eq_head_of_all _ _ (fun x hx => by
    simpa using canBeFocused_tabIndex x
      (mem_getFocusableElements_canBeFocused l x hx))

theorem getLastFocusableElement_eq_getLast (l : List Elem) :
    getLastFocusableElement l = (getFocusableElements l).getLast? := by
  unfold getLastFocusableElement
  rw [find?_eq_head_of_all _ _ (fun x hx => by
    simpa using canBeFocused_tabIndex x
      (mem_getFocusableElements_canBeFocused l x (List.mem_reverse.mp hx)))]
  exact List.head?_reverse _

theorem getFocusableElements_build (c : TrapContainer) :
    getFocusableElements (buildFocusBumperElements c).elems =
      getFocusableElements c.elems := by
  unfold buildFocusBumperElements
  by_cases h : ((c.elems.filter isBumperElem).length != 0) = true
  · rw [if_pos h]
  · rw [if_neg h]
    show getFocusableElements (bumperStart :: (c.elems ++ [bumperEnd])) = _
    have h1 : matchesFocusCandidateSelector bumperStart = true := by decide
    have h2 : matchesFocusCandidateSelector bumperEnd = true := by decide
    have h3 : canBeFocused bumperStart = false := by decide
    have h4 : canBeFocused bumperEnd = false := by decide
    simp [getFocusableElements, List.filter_append, List.filter_cons,
      h1, h2, h3, h4]

theorem bumperCount_build_of_zero (c : TrapContainer)
    (h : bumperCount c.elems = 0) :
    buildFocusBumperElements c =
      { elems := bumperStart :: c.elems ++ [bumperEnd],
        bumperFocusListeners := c.bumperFocusListeners + 2 } := by
  unfold buildFocusBumperElements
  rw [if_neg]
  unfold bumperCount at h
  simp [h]

theorem filter_isBumperElem_eq_nil (l : List Elem) (h : bumperCount l = 0) :
    l.filter isBumperElem = [] := by
  unfold bumperCount at h
  exact List.length_eq_zero.mp h

theorem bumperCount_after_build (c : TrapContainer)
    (h : bumperCount c.elems = 0) :
    bumperCount (buildFocusBumperElements c).elems = 2 := by
  rw [bumperCount_build_of_zero c h]
  show bumperCount (bumperStart :: (c.elems ++ [bumperEnd])) = 2
  unfold bumperCount
  rw [List.filter_cons, List.filter_append, filter_isBumperElem_eq_nil _ h]
  have h1 : isBumperElem bumperStart = true := by decide
  have h2 : isBumperElem bumperEnd = true := by decide
  simp [h1, h2]

theorem build_of_ne_zero (c : TrapContainer) (h : bumperCount c.elems ≠ 0) :
    buildFocusBumperElements c = c := by
  unfold buildFocusBumperElements
  rw [if_pos]
  unfold bumperCount at h
  simp [h]

theorem bumperCount_stop (c : TrapContainer) :
    bumperCount (stop c).elems = 0 := by
  unfold stop bumperCount
  rw [List.filter_filter]
  simp

theorem stop_elems_of_zero (c : TrapContainer) (h : bumperCount c.elems = 0) :
    (stop c).elems = c.elems := by
  unfold stop
  exact List.filter_eq_self.mpr (fun a ha => by
    have := List.filter_eq_nil_iff.mp (filter_isBumperElem_eq_nil _ h) a ha
    simpa using this)

end FocusTrap

/-- C3. For every container with at least one focusable descendant, after
`FocusTrap.start` the focus lies on the first focusable descendant (first
conjunct; the third conjunct shows focus is left unchanged when no focusable
descendant exists); afterwards, focus arriving on the start bumper is
redirected to the last real focusable descendant and focus arriving on the
end bumper to the first (remaining conjuncts), so tabbing past either end
wraps to the other. -/
theorem focus_trap_start_and_wrap (c : FocusTrap.TrapContainer)
    (f0 g : Option Elem)
    (hne : FocusTrap.getFocusableElements c.elems ≠ []) :
    (FocusTrap.start c f0).2 = (FocusTrap.getFocusableElements c.elems).head? ∧
    ((FocusTrap.getFocusableElements c.elems).head?).isSome = true ∧
    (∀ (c0 : FocusTrap.TrapContainer) (f1 : Option Elem),
      FocusTrap.getFocusableElements c0.elems = [] →
      (FocusTrap.start c0 f1).2 = f1) ∧
    FocusTrap.focusTrapHandler FocusTrap.bumperStart
        (FocusTrap.start c f0).1.elems g =
      (FocusTrap.getFocusableElements c.elems).getLast? ∧
    ((FocusTrap.getFocusableElements c.elems).getLast?).isSome = true ∧
    FocusTrap.focusTrapHandler FocusTrap.bumperEnd
        (FocusTrap.start c f0).1.elems g =
      (FocusTrap.getFocusableElements c.elems).head? := by
  have hfirst : ∀ c1 : FocusTrap.TrapContainer,
      FocusTrap.getFirstFocusableElement (FocusTrap.buildFocusBumperElements c1).elems =
        (FocusTrap.getFocusableElements c1.elems).head? := by
    intro c1
    rw [FocusTrap.getFirstFocusableElement_eq_head,
        FocusTrap.getFocusableElements_build]
  have hlast :
      FocusTrap.getLastFocusableElement (FocusTrap.buildFocusBumperElements c).elems =
        (FocusTrap.getFocusableElements c.elems).getLast? := by
    rw [FocusTrap.getLastFocusableElement_eq_getLast,
        FocusTrap.getFocusableElements_build]
  have hsb : (FocusTrap.bumperStart.tag == "focus-bumper" &&
      FocusTrap.bumperStart.dataBumper == some "start") = true := by decide
  have hsb2 : (FocusTrap.bumperStart.tag == "focus-bumper" &&
      FocusTrap.bumperStart.dataBumper == some "end") = false := by decide
  have heb : (FocusTrap.bumperEnd.tag == "focus-bumper" &&
      FocusTrap.bumperEnd.dataBumper == some "end") = true := by decide
  have heb2 : (FocusTrap.bumperEnd.tag == "focus-bumper" &&
      FocusTrap.bumperEnd.dataBumper == some "start") = false := by decide
  refine ⟨?_, ?_, ?_, ?_, ?_, ?_⟩
  · show (match FocusTrap.getFirstFocusableElement
        (FocusTrap.buildFocusBumperElements c).elems with
      | some e => some e
      | none => f0) = _
    rw [hfirst c]
    cases hfe : FocusTrap.getFocusableElements c.elems with
    | nil => exact absurd hfe hne
    | cons a t => rfl
  · cases hfe : FocusTrap.getFocusableElements c.elems with
    | nil => exact absurd hfe hne
    | cons a t => rfl
  · intro c0 f1 h0
    show (match FocusTrap.getFirstFocusableElement
        (FocusTrap.buildFocusBumperElements c0).elems with
      | some e => some e
      | none => f1) = f1
    rw [hfirst c0, h0]
    rfl
  · show FocusTrap.focusTrapHandler FocusTrap.bumperStart
        (FocusTrap.buildFocusBumperElements c).elems g = _
    unfold FocusTrap.focusTrapHandler
    rw [if_pos hsb, if_neg (by simp [hsb2])]
    rw [hlast]
    cases hfe : FocusTrap.getFocusableElements c.elems with
    | nil => exact absurd hfe hne
    | cons a t =>
      cases hl : (a :: t).getLast? with
      | none => simp at hl
      | some e => rfl
  · cases hfe : FocusTrap.getFocusableElements c.elems with
    | nil => exact absurd hfe hne
    | cons a t =>
      have : (a :: t).getLast? = some ((a :: t).getLast (by simp)) :=
        List.getLast?_eq_getLast _ _
      rw [this]
      rfl
  · show FocusTrap.focusTrapHandler FocusTrap.bumperEnd
        (FocusTrap.buildFocusBumperElements c).elems g = _
    unfold FocusTrap.focusTrapHandler
    rw [if_pos heb, hfirst c]
    cases hfe : FocusTrap.getFocusableElements c.elems with
    | nil => exact absurd hfe hne
    | cons a t => rfl

/-- Witness for C3: a container holding a button and an input; `start`
focuses the first focusable descendant. -/
theorem focus_trap_start_and_wrap_witness :
    (FocusTrap.start sampleContainer none).2 =
      (FocusTrap.getFocusableElements sampleContainer.elems).head? :=
  (focus_trap_start_and_wrap sampleContainer none none (by decide)).1

/-- C4. The bumper count of a container is always exactly 0 or 2: starting an
untrapped container (0 bumpers) inserts exactly two bumpers, one as first
child and one as last child, attaching exactly two bumper focus listeners
(conjuncts 1-4); a second `start` on an already-trapped container changes
nothing — no additional bumpers or listeners (conjunct 5); `stop` always
leaves zero bumpers (conjunct 6) and removes nothing when none are present
(conjunct 7); and along any sequence of `start`/`stop` calls from an
untrapped container the bumper count stays in {0, 2} (last conjunct). -/
theorem focus_trap_bumper_invariant (c : FocusTrap.TrapContainer)
    (ops : List TrapOp) (h0 : FocusTrap.bumperCount c.elems = 0) :
    FocusTrap.bumperCount (FocusTrap.start c none).1.elems = 2 ∧
    (FocusTrap.start c none).1.elems.head? = some FocusTrap.bumperStart ∧
    (FocusTrap.start c none).1.elems.getLast? = some FocusTrap.bumperEnd ∧
    (FocusTrap.start c none).1.bumperFocusListeners =
      c.bumperFocusListeners + 2 ∧
    (∀ (c' : FocusTrap.TrapContainer) (f : Option Elem),
      FocusTrap.bumperCount c'.elems ≠ 0 →
      (FocusTrap.start c' f).1 = c') ∧
    (∀ c' : FocusTrap.TrapContainer,
      FocusTrap.bumperCount (FocusTrap.stop c').elems = 0) ∧
    (FocusTrap.stop c).elems = c.elems ∧
    (FocusTrap.bumperCount ((ops.foldl applyTrapOp c).elems) = 0 ∨
     FocusTrap.bumperCount ((ops.foldl applyTrapOp c).elems) = 2) := by
  have hstart1 : (FocusTrap.start c none).1 = FocusTrap.buildFocusBumperElements c := rfl
  have hbuild := FocusTrap.bumperCount_build_of_zero c h0
  refine ⟨?_, ?_, ?_, ?_, ?_, ?_, ?_, ?_⟩
  · rw [hstart1]
    exact FocusTrap.bumperCount_after_build c h0
  · rw [hstart1, hbuild]
    rfl
  · rw [hstart1, hbuild]
    show (FocusTrap.bumperStart :: (c.elems ++ [FocusTrap.bumperEnd])).getLast? =
      some FocusTrap.bumperEnd
    rw [List.getLast?_cons]
    simp
  · rw [hstart1, hbuild]
  · intro c' f h
    exact FocusTrap.build_of_ne_zero c' h
  · exact FocusTrap.bumperCount_stop
  · exact FocusTrap.stop_elems_of_zero c h0
  · have step : ∀ (c' : FocusTrap.TrapContainer) (op : TrapOp),
        (FocusTrap.bumperCount c'.elems = 0 ∨ FocusTrap.bumperCount c'.elems = 2) →
        (FocusTrap.bumperCount (applyTrapOp c' op).elems = 0 ∨
         FocusTrap.bumperCount (applyTrapOp c' op).elems = 2) := by
      intro c' op hc
      cases op with
      | startOp =>
        rw [show applyTrapOp c' TrapOp.startOp =
          FocusTrap.buildFocusBumperElements c' from rfl]
        cases hc with
        | inl hz => exact Or.inr (FocusTrap.bumperCount_after_build c' hz)
        | inr h2 =>
          rw [FocusTrap.build_of_ne_zero c' (by rw [h2]; exact two_ne_zero)]
          exact Or.inr h2
      | stopOp => exact Or.inl (FocusTrap.bumperCount_stop c')
    have main : ∀ (l : List TrapOp) (c' : FocusTrap.TrapContainer),
        (FocusTrap.bumperCount c'.elems = 0 ∨ FocusTrap.bumperCount c'.elems = 2) →
        (FocusTrap.bumperCount ((l.foldl applyTrapOp c').elems) = 0 ∨
         FocusTrap.bumperCount ((l.foldl applyTrapOp c').elems) = 2) := by
      intro l
      induction l with
      | nil => intro c' hc; exact hc
      | cons op rest ih =>
        intro c' hc
        exact ih (applyTrapOp c' op) (step c' op hc)
    exact main ops c (Or.inl h0)

/-- Witness for C4 at the concrete sample container: starting it yields
exactly two bumpers. -/
theorem focus_trap_bumper_invariant_witness :
    FocusTrap.bumperCount
      (FocusTrap.start sampleContainer none).1.elems = 2 :=
  (focus_trap_bumper_invariant sampleContainer [] (by decide)).1

/-- C8 counterexample. The claim says the focusable-element list contains
precisely the descendants satisfying the focusability predicate.  An
`<object>` element (default `tabIndex` 0 per WHATWG HTML, rendered, not
hidden, not disabled, not a bumper) satisfies the predicate, yet it matches
no clause of the candidate selector `getFocusableElements` hands to
`querySelectorAll`, so the returned list omits it: the list is the
selector-matching descendants satisfying the predicate, not all
predicate-satisfying descendants. -/
theorem focus_trap_selector_gap_counterexample :
    FocusTrap.canBeFocused objectElem = true ∧
    objectElem ∈ [objectElem] ∧
    FocusTrap.getFocusableElements [objectElem] = [] := by
  refine ⟨by decide, by simp, by decide⟩

/-- C8 amended. The focusability predicate is exactly as the claim states it
(first conjunct, against the spec-phrased predicate `canBeFocusedSpec`); the
focusable-element list contains precisely the descendants that match the
candidate CSS selector AND satisfy the predicate (second conjunct) — not all
predicate-satisfying descendants — and in particular never contains a bumper
sentinel (third conjunct), since bumpers match the selector but fail the
predicate. -/
theorem focus_trap_focusable_characterization (t : Elem) (l : List Elem) :
    (FocusTrap.canBeFocused t = true ↔ canBeFocusedSpec t) ∧
    (t ∈ FocusTrap.getFocusableElements l ↔
      (t ∈ l ∧ matchesFocusCandidateSelector t = true ∧ canBeFocusedSpec t)) ∧
    (t.dataBumper.isSome = true → t ∉ FocusTrap.getFocusableElements l) := by
  have hcont : ∀ s : String, (t.classes.contains s = false) ↔ s ∉ t.classes := by
    intro s
    rw [Bool.eq_false_iff]
    exact not_congr List.elem_iff
  have hopt : (t.dataBumper.isSome = false) ↔ t.dataBumper = none := by
    cases t.dataBumper <;> simp
  have hchar : FocusTrap.canBeFocused t = true ↔ canBeFocusedSpec t := by
    unfold FocusTrap.canBeFocused canBeFocusedSpec
    simp only [Bool.and_eq_true, Bool.or_eq_true, Bool.not_eq_true',
      decide_eq_true_eq, bne_iff_ne, ne_eq]
    constructor
    · rintro ⟨⟨⟨⟨h1, h2⟩, ⟨h3, h4⟩, h5⟩, h6⟩, h7⟩
      exact ⟨by omega, by tauto, h3, (hcont _).mp h4, (hcont _).mp h5, h6,
        hopt.mp h7⟩
    · rintro ⟨g1, g2, g3, g4, g5, g6, g7⟩
      exact ⟨⟨⟨⟨by omega, by tauto⟩, ⟨g3, (hcont _).mpr g4⟩,
        (hcont _).mpr g5⟩, g6⟩, hopt.mpr g7⟩
  refine ⟨hchar, ?_, ?_⟩
  · constructor
    · intro hmem
      have h1 := List.mem_filter.mp hmem
      have h2 := List.mem_filter.mp h1.1
      exact ⟨h2.1, h2.2, hchar.mp h1.2⟩
    · rintro ⟨hl, hsel, hspec⟩
      exact List.mem_filter.mpr
        ⟨List.mem_filter.mpr ⟨hl, hsel⟩, hchar.mpr hspec⟩
  · intro hbump hmem
    have h1 := List.mem_filter.mp hmem
    have hspec := hchar.mp h1.2
    rw [hspec.2.2.2.2.2.2] at hbump
    simp at hbump

/-- Witness for C8: the start bumper is never in the focusable list of a
container that contains it. -/
theorem focus_trap_focusable_characterization_witness :
    FocusTrap.bumperStart ∉
      FocusTrap.getFocusableElements [FocusTrap.bumperStart, sampleButton] :=
  (focus_trap_focusable_characterization FocusTrap.bumperStart
    [FocusTrap.bumperStart, sampleButton]).2.2 (by decide)

namespace SlideShow

theorem optNat_beq (k j : Nat) :
    ((some k : Option Nat) == some j) = decide (k = j) := by
  by_cases h : k = j <;> simp [h]

theorem countActive_cons (s : Slide) (l : List Slide) :
    countActive (s :: l) = (if s.isActive then 1 else 0) + countActive l := by
  unfold countActive
  rw [List.filter_cons]
  by_cases h : s.isActive <;> simp [h, Nat.add_comm]

theorem activeIdxAux_setActiveFrom_some (k : Nat) :
    ∀ (l : List Slide) (j : Nat),
    activeIdxAux j (setActiveFrom (some k) j l) =
      if j ≤ k ∧ k < j + l.length then some k else none := by
  intro l
  induction l with
  | nil =>
    intro j
    simp only [setActiveFrom, activeIdxAux, List.length_nil, Nat.add_zero]
    rw [if_neg (by omega)]
  | cons s rest ih =>
    intro j
    simp only [setActiveFrom, activeIdxAux, optNat_beq, List.length_cons]
    by_cases hkj : k = j
    · rw [decide_eq_true hkj,
          if_pos (show j ≤ k ∧ k < j + (rest.length + 1) by omega), hkj]
      rfl
    · rw [decide_eq_false hkj]
      simp only [Bool.false_eq_true, if_false]
      rw [ih (j + 1)]
      by_cases hc : j + 1 ≤ k ∧ k < j + 1 + rest.length
      · rw [if_pos hc, if_pos (by omega)]
      · rw [if_neg hc, if_neg (by omega)]

theorem countActive_setActiveFrom_some (k : Nat) :
    ∀ (l : List Slide) (j : Nat),
    countActive (setActiveFrom (some k) j l) =
      if j ≤ k ∧ k < j + l.length then 1 else 0 := by
  intro l
  induction l with
  | nil =>
    intro j
    simp only [setActiveFrom, countActive, List.filter_nil, List.length_nil,
      Nat.add_zero]
    rw [if_neg (by omega)]
  | cons s rest ih =>
    intro j
    simp only [setActiveFrom, List.length_cons]
    rw [countActive_cons]
    simp only [optNat_beq]
    by_cases hkj : k = j
    · rw [decide_eq_true hkj, ih (j + 1),
          if_neg (show ¬(j + 1 ≤ k ∧ k < j + 1 + rest.length) by omega),
          if_pos (show j ≤ k ∧ k < j + (rest.length + 1) by omega)]
      rfl
    · rw [decide_eq_false hkj, ih (j + 1)]
      simp only [Bool.false_eq_true, if_false, Nat.zero_add]
      by_cases hc : j + 1 ≤ k ∧ k < j + 1 + rest.length
      · rw [if_pos hc, if_pos (by omega)]
      · rw [if_neg hc, if_neg (by omega)]

theorem countActive_setActiveFrom_none :
    ∀ (l : List Slide) (j : Nat),
    countActive (setActiveFrom none j l) = 0 := by
  intro l
  induction l with
  | nil => intro j; rfl
  | cons s rest ih =>
    intro j
    simp only [setActiveFrom]
    rw [countActive_cons]
    simp only [show ((none : Option Nat) == some j) = false from rfl,
      Bool.false_eq_true, if_false, Nat.zero_add]
    exact ih (j + 1)

theorem getSlideIndex_eq_clamp (n : Nat) (hn : n ≠ 0) (i : Int) :
    getSlideIndex n i = some (min i.toNat (n - 1)) := by
  unfold getSlideIndex
  rw [if_neg hn]
  by_cases h1 : i > (n : Int) - 1
  · rw [if_pos h1]; congr 1; omega
  · rw [if_neg h1]
    by_cases h2 : i < 0
    · rw [if_pos h2]; congr 1; omega
    · rw [if_neg h2]; congr 1; omega

theorem findIdAux_some_bound (s : String) :
    ∀ (l : List Slide) (j k : Nat),
    findIdAux s j l = some k → j ≤ k ∧ k < j + l.length := by
  intro l
  induction l with
  | nil => intro j k h; simp [findIdAux] at h
  | cons sl rest ih =>
    intro j k h
    simp only [findIdAux] at h
    by_cases hid : (sl.id == s) = true
    · rw [if_pos hid] at h
      have := Option.some.inj h
      simp only [List.length_cons]
      omega
    · rw [if_neg hid] at h
      have := ih (j + 1) k h
      simp only [List.length_cons]
      omega

theorem activeIdxAux_shift :
    ∀ (l : List Slide) (j : Nat),
    activeIdxAux j l = (activeIdxAux 0 l).map (fun x => x + j) := by
  intro l
  induction l with
  | nil => intro j; rfl
  | cons s rest ih =>
    intro j
    simp only [activeIdxAux]
    by_cases ha : s.isActive = true
    · rw [if_pos ha, if_pos ha]
      simp
    · rw [if_neg ha, if_neg ha, ih (j + 1), ih 1, Option.map_map]
      cases activeIdxAux 0 rest with
      | none => rfl
      | some x =>
        simp only [Option.map_some', Function.comp]
        congr 1
        omega

theorem activeIdx_none_iff (l : List Slide) :
    activeIdx l = none ↔ countActive l = 0 := by
  induction l with
  | nil => simp [activeIdx, activeIdxAux, countActive]
  | cons s rest ih =>
    unfold activeIdx at ih ⊢
    simp only [activeIdxAux]
    rw [countActive_cons]
    by_cases ha : s.isActive = true
    · rw [if_pos ha, if_pos ha]
      simp
    · rw [if_neg ha, if_neg ha, activeIdxAux_shift rest 1]
      simp only [Nat.zero_add, Option.map_eq_none']
      rw [ih]

theorem countActive_eraseIdx :
    ∀ (l : List Slide) (k : Nat), activeIdx l = some k → countActive l = 1 →
    countActive (l.eraseIdx k) = 0 := by
  intro l
  induction l with
  | nil => intro k h; simp [activeIdx, activeIdxAux] at h
  | cons s rest ih =>
    intro k h1 h2
    unfold activeIdx at h1
    simp only [activeIdxAux] at h1
    rw [countActive_cons] at h2
    by_cases ha : s.isActive = true
    · rw [if_pos ha] at h1
      rw [if_pos ha] at h2
      have hk : k = 0 := (Option.some.inj h1).symm
      subst hk
      show countActive rest = 0
      omega
    · rw [if_neg ha] at h1
      rw [if_neg ha] at h2
      rw [activeIdxAux_shift rest 1] at h1
      obtain ⟨x, hx, hxk⟩ := Option.map_eq_some'.mp h1
      have hrest : countActive (rest.eraseIdx x) = 0 :=
        ih x hx (by omega)
      rw [show k = x + 1 from hxk.symm]
      show countActive (s :: rest.eraseIdx x) = 0
      rw [countActive_cons, if_neg ha]
      omega

end SlideShow

/-- C5. For every deck with N ≥ 1 slides and every integer index,
`activateSlide` activates the slide at the clamped position
`min i.toNat (N - 1)`: `getSlide` resolves the index to that position (first
conjunct), the position is always inside `[0, N-1]` (second conjunct), every
negative index clamps to 0 and every index ≥ N clamps to N-1 — no
wraparound (third and fourth conjuncts) — and after `activateSlide` the
active slide sits exactly at the clamped position (last conjunct). -/
theorem slideshow_activate_clamps_index (slides : List SlideShow.Slide)
    (i : Int) (h : slides ≠ []) :
    SlideShow.getSlideRef slides (.idx i) =
      some (min i.toNat (slides.length - 1)) ∧
    min i.toNat (slides.length - 1) < slides.length ∧
    (i < 0 → min i.toNat (slides.length - 1) = 0) ∧
    ((slides.length : Int) ≤ i →
      min i.toNat (slides.length - 1) = slides.length - 1) ∧
    SlideShow.activeIdx (SlideShow.activateSlide slides (.idx i)) =
      some (min i.toNat (slides.length - 1)) := by
  have hn : slides.length ≠ 0 := fun hl => h (List.length_eq_zero.mp hl)
  have href : SlideShow.getSlideRef slides (.idx i) =
      some (min i.toNat (slides.length - 1)) :=
    SlideShow.getSlideIndex_eq_clamp slides.length hn i
  refine ⟨href, by omega, fun hi => by omega, fun hi => by omega, ?_⟩
  unfold SlideShow.activateSlide SlideShow.activeIdx
  rw [href, SlideShow.activeIdxAux_setActiveFrom_some, if_pos (by omega)]

/-- Witness for C5 at a concrete three-slide deck and index -1: the active
position is the clamp of -1, i.e. slide 0. -/
theorem slideshow_activate_clamps_index_witness :
    SlideShow.activeIdx (SlideShow.activateSlide sampleDeck3 (.idx (-1))) =
      some (min (Int.toNat (-1)) (sampleDeck3.length - 1)) :=
  (slideshow_activate_clamps_index sampleDeck3 (-1) (by decide)).2.2.2.2

/-- C6 counterexample. The claim says that on a non-empty initialized deck
every `activateSlide` call leaves exactly one slide active.  Calling
`activateSlide` with an id that matches no slide makes `getSlide` resolve to
no element (`querySelector` returns null), and the per-slide toggle
`s === target` is then false for every slide: all slides are deactivated and
zero remain active. -/
theorem slideshow_activate_unknown_id_counterexample :
    SlideShow.countActive (SlideShow.activateSlide sampleDeck (.sid "zzz")) = 0 ∧
    SlideShow.countActive (SlideShow.activateSlide sampleDeck (.sid "zzz")) ≠ 1 := by
  refine ⟨by decide, by decide⟩

/-- C6 amended. On a non-empty deck, `activateSlide` with ANY integer index
leaves exactly one slide active (conjunct 1), and so does `activateSlide`
with the id of one of the slides (conjunct 2); but `activateSlide` with an id
matching no slide deactivates every slide, leaving zero active (conjunct 3).
After `destroySlide` removes the active slide of a deck with exactly one
active slide, `refreshUI` re-activates slide 0, so exactly one of the
remaining slides is active — never zero, never more than one (conjunct 4). -/
theorem slideshow_exactly_one_active_amended :
    (∀ (slides : List SlideShow.Slide) (i : Int), slides ≠ [] →
      SlideShow.countActive (SlideShow.activateSlide slides (.idx i)) = 1) ∧
    (∀ (slides : List SlideShow.Slide) (s : String) (k : Nat),
      SlideShow.getSlideRef slides (.sid s) = some k →
      SlideShow.countActive (SlideShow.activateSlide slides (.sid s)) = 1) ∧
    (∀ (slides : List SlideShow.Slide) (s : String),
      SlideShow.getSlideRef slides (.sid s) = none →
      SlideShow.countActive (SlideShow.activateSlide slides (.sid s)) = 0) ∧
    (∀ (slides : List SlideShow.Slide) (r : SlideShow.SlideRef) (k : Nat),
      SlideShow.getSlideRef slides r = some k →
      SlideShow.activeIdx slides = some k →
      SlideShow.countActive slides = 1 →
      slides.eraseIdx k ≠ [] →
      SlideShow.countActive (SlideShow.destroySlide slides r) = 1) := by
  have hidx : ∀ (slides : List SlideShow.Slide) (i : Int), slides ≠ [] →
      SlideShow.countActive (SlideShow.activateSlide slides (.idx i)) = 1 := by
    intro slides i h
    have hn : slides.length ≠ 0 := fun hl => h (List.length_eq_zero.mp hl)
    unfold SlideShow.activateSlide
    rw [show SlideShow.getSlideRef slides (.idx i) =
          SlideShow.getSlideIndex slides.length i from rfl,
        SlideShow.getSlideIndex_eq_clamp slides.length hn i,
        SlideShow.countActive_setActiveFrom_some, if_pos (by omega)]
  refine ⟨hidx, ?_, ?_, ?_⟩
  · intro slides s k hk
    have hk' : SlideShow.findIdAux s 0 slides = some k := hk
    have hb := SlideShow.findIdAux_some_bound s slides 0 k hk'
    unfold SlideShow.activateSlide
    rw [hk, SlideShow.countActive_setActiveFrom_some, if_pos (by omega)]
  · intro slides s hk
    unfold SlideShow.activateSlide
    rw [hk, SlideShow.countActive_setActiveFrom_none]
  · intro slides r k hk hact hcount hne
    unfold SlideShow.destroySlide
    rw [hk]
    show SlideShow.countActive (SlideShow.refreshUI (slides.eraseIdx k)) = 1
    have h0 : SlideShow.countActive (slides.eraseIdx k) = 0 :=
      SlideShow.countActive_eraseIdx slides k hact hcount
    have hnone : SlideShow.activeIdx (slides.eraseIdx k) = none :=
      (SlideShow.activeIdx_none_iff _).mpr h0
    unfold SlideShow.refreshUI
    rw [hnone]
    simp only [Option.isNone_none, if_true]
    exact hidx _ 0 hne

/-- Witness for C6 at the concrete two-slide deck: destroying the active
slide "a" leaves exactly one of the remaining slides active. -/
theorem slideshow_exactly_one_active_amended_witness :
    SlideShow.countActive (SlideShow.destroySlide sampleDeck (.sid "a")) = 1 :=
  slideshow_exactly_one_active_amended.2.2.2 sampleDeck (.sid "a") 0
    (by decide) (by decide) (by decide) (by decide)

/-- C7 counterexample. The claim says construction aborts initialization when
arrow controls are requested together with slide-overflow display.  With
valid animation style and a valid `OL` stage, `init` consults only
`validateSettings` (animation style), `validateStage` and `validateSlides`;
`hasNavArrows`/`hasSlideOverflow` are never checked, so the component
initializes fully — only `buildNavArrows` returns early, skipping the two
arrow buttons. -/
theorem slideshow_init_overflow_arrows_counterexample :
    (SlideShow.init overflowArrowsSettings (some "OL")).initialized = true ∧
    SlideShow.buildsNavArrows overflowArrowsSettings = false := by
  refine ⟨by decide, by decide⟩

/-- C7 amended. `init` on a fresh instance aborts (no build, no listeners,
`initialized` stays false) exactly when the animation style is outside
{slide, fade, none} (conjunct 1) or the stage element is missing (conjunct 2)
or is not an ordered list (conjunct 3).  With a valid style and an `OL`
stage, initialization completes even when arrows and slide overflow are both
requested; that combination only suppresses the construction of the nav
arrows (conjunct 4). -/
theorem slideshow_init_validation_amended (s : SlideShow.SSSettings)
    (stage : Option String) :
    (SlideShow.animationStyles.contains s.animationStyle = false →
      SlideShow.init s stage =
        { initialized := false, built := false, listenersAdded := false }) ∧
    (SlideShow.init s none =
      { initialized := false, built := false, listenersAdded := false }) ∧
    (∀ tag : String, tag ≠ "OL" →
      SlideShow.init s (some tag) =
        { initialized := false, built := false, listenersAdded := false }) ∧
    (SlideShow.animationStyles.contains s.animationStyle = true →
      stage = some "OL" →
      SlideShow.init s stage =
        { initialized := true, built := true, listenersAdded := true } ∧
      (s.hasNavArrows = true → s.hasSlideOverflow = true →
        SlideShow.buildsNavArrows s = false)) := by
  refine ⟨?_, ?_, ?_, ?_⟩
  · intro hv
    have hv' : s.animationStyle ∉ SlideShow.animationStyles := by
      intro hm
      have h2 : SlideShow.animationStyles.contains s.animationStyle = true :=
        List.elem_iff.mpr hm
      rw [hv] at h2
      exact absurd h2 (by decide)
    simp [SlideShow.init, SlideShow.validateSettings, hv']
  · simp [SlideShow.init, SlideShow.validateStage]
  · intro tag htag
    simp [SlideShow.init, SlideShow.validateStage, htag]
  · intro hv hst
    subst hst
    constructor
    · have hm : s.animationStyle ∈ SlideShow.animationStyles :=
        List.elem_iff.mp hv
      simp [SlideShow.init, SlideShow.validateSettings, SlideShow.validateStage,
        SlideShow.validateSlides, hm]
    · intro h1 h2
      simp [SlideShow.buildsNavArrows, h1, h2]

/-- Witness for C7: the arrows-plus-overflow settings with a valid `OL`
stage initialize fully. -/
theorem slideshow_init_validation_amended_witness :
    SlideShow.init overflowArrowsSettings (some "OL") =
      { initialized := true, built := true, listenersAdded := true } :=
  ((slideshow_init_validation_amended overflowArrowsSettings
    (some "OL")).2.2.2 (by decide) rfl).1

/-- C9 counterexample. The claim lists a non-string `id` among the invalid
settings that make the primary `deploy` warn and return without mutating the
DOM.  But `deploy` calls `validateSettings({ message, location, type })`
without the `id` field, so a numeric `id` (here 42) with otherwise valid
settings produces zero warnings and `deploy` reaches the DOM-mutating tail. -/
theorem alert_banners_nonstring_id_counterexample :
    AlertBanners.deploy (.vStr "hello") (.vNum 42) (.vStr "top") (.vStr "info")
      { containerExists := true, bannerWithIdIsBanner := false } =
      ([], .deployed) := by
  rfl

/-- C9 amended. The primary `deploy` warns and aborts before any DOM
mutation for a missing message (conjunct 1), an explicitly invalid location
(conjunct 2) and an invalid type (conjunct 3) — but not for a non-string
`id`, which `deploy` never passes to `validateSettings`: such a call deploys
with no warning (conjunct 4).  The alternate variant's `validateSettings`
returns `ok true` exactly when the message is truthy, the id check passes,
the location is `"top"`/`"bottom"` and the type is one of the six status
types (conjunct 5), and it never returns `ok false` (conjunct 6) — so on
every invalid settings object it raises instead of warning. -/
theorem alert_banners_validation_amended (message id location type_ : JVal)
    (env : AlertBanners.BannerEnv) :
    (message.truthy = false →
      (AlertBanners.deploy message id location type_ env).2 =
        .abortedInvalid ∧
      (AlertBanners.deploy message id location type_ env).1 ≠ []) ∧
    (location ≠ .vUndef → location ≠ .vStr "top" → location ≠ .vStr "bottom" →
      (AlertBanners.deploy message id location type_ env).2 =
        .abortedInvalid ∧
      (AlertBanners.deploy message id location type_ env).1 ≠ []) ∧
    (type_ ≠ .vUndef → (∀ t ∈ statusTypes, type_ ≠ JVal.vStr t) →
      (AlertBanners.deploy message id location type_ env).2 =
        .abortedInvalid ∧
      (AlertBanners.deploy message id location type_ env).1 ≠ []) ∧
    (∀ (m : String) (n : Int), m ≠ "" →
      AlertBanners.deploy (.vStr m) (.vNum n) .vUndef .vUndef
        { containerExists := true, bannerWithIdIsBanner := false } =
        ([], .deployed)) ∧
    (AlertBannersAlt.validateSettings message id location type_ = .ok true ↔
      (message.truthy = true ∧ (id.truthy && !id.isString) = false ∧
       (location == JVal.vStr "top" || location == JVal.vStr "bottom") = true ∧
       (["success", "trouble", "error", "featured", "info", "system"].any
         (fun t => type_ == JVal.vStr t)) = true)) ∧
    (∀ b : Bool,
      AlertBannersAlt.validateSettings message id location type_ = .ok b →
      b = true) := by
  refine ⟨?_, ?_, ?_, ?_, ?_, ?_⟩
  · intro hm
    unfold AlertBanners.deploy AlertBanners.validateSettings
    simp [hm, List.append_eq_nil]
  · intro h1 h2 h3
    have hb1 : (location == JVal.vUndef) = false := by simp [h1]
    have hb2 : (location == JVal.vStr "top") = false := by simp [h2]
    have hb3 : (location == JVal.vStr "bottom") = false := by simp [h3]
    unfold AlertBanners.deploy AlertBanners.validateSettings
    simp [hb1, hb2, hb3, List.append_eq_nil]
  · intro h1 h2
    have hb1 : (type_ == JVal.vUndef) = false := by simp [h1]
    have hany : statusTypes.any (fun t => type_ == JVal.vStr t) = false := by
      rw [List.any_eq_false]
      intro t ht
      simp [h2 t ht]
    unfold AlertBanners.deploy AlertBanners.validateSettings
    simp [hb1, hany, List.append_eq_nil]
  · intro m n hm
    unfold AlertBanners.deploy AlertBanners.validateSettings
    simp [JVal.truthy, hm]
    decide
  · unfold AlertBannersAlt.validateSettings
    split_ifs with h1 h2 h3 h4
    · simp only [Bool.not_eq_true'] at h1
      simp [h1]
    · simp [h2]
    · simp only [Bool.not_eq_true'] at h1
      simp only [Bool.not_eq_true'] at h3
      simp [h1, h2, h3]
    · simp only [Bool.not_eq_true'] at h1 h3 h4
      simp [h1, h2, h3, h4]
    · simp at h1 h2 h3 h4 ⊢
      tauto
  · intro b hb
    unfold AlertBannersAlt.validateSettings at hb
    split_ifs at hb
    simp at hb
    exact hb

/-- Witness for C9: the concrete invalid-location call aborts with a
warning, the concrete non-string-id call deploys silently, and the alternate
variant accepts a fully valid settings object. -/
theorem alert_banners_validation_amended_witness :
    (AlertBanners.deploy (.vStr "hi") .vUndef (.vStr "middle") (.vStr "info")
      { containerExists := true, bannerWithIdIsBanner := false }).2 =
      .abortedInvalid ∧
    AlertBanners.deploy (.vStr "hi") (.vNum 7) .vUndef .vUndef
      { containerExists := true, bannerWithIdIsBanner := false } =
      ([], .deployed) :=
  ⟨((alert_banners_validation_amended (.vStr "hi") .vUndef (.vStr "middle")
      (.vStr "info")
      { containerExists := true, bannerWithIdIsBanner := false }).2.1
      (by decide) (by decide) (by decide)).1,
   (alert_banners_validation_amended (.vStr "hi") (.vNum 7) .vUndef .vUndef
      { containerExists := true, bannerWithIdIsBanner := false }).2.2.2.1
      "hi" 7 (by decide)⟩
